import Mathlib

/-!
Shallow embedding of the nginx module `ngx_http_block_legacy_module.c`.

The module keeps one configuration record per scope
(`ngx_http_block_legacy_conf_t`).  A raw, author-supplied scope has each
flag equal to `NGX_CONF_UNSET` (and `custom_message.data == NULL`) until a
directive sets it; we model that three-valued state with `Option`.  A merged
(resolved) configuration has every field set; we model it as `Policy`.
Strings in the C code are byte strings; all bytes involved are ASCII, so
`String` with `String.length` is a faithful byte-level model.
-/

namespace BlockLegacy

/-- Resolved configuration (`ngx_http_block_legacy_conf_t` after
`ngx_http_block_legacy_merge_conf` ran: no `NGX_CONF_UNSET` left, and
`custom_message.data` is never `NULL`, the unset default being `""`). -/
@[ext] structure Policy where
  enable : Bool
  block_http10 : Bool
  block_http11 : Bool
  block_http09 : Bool
  custom_message : String
deriving DecidableEq, Repr

/-- Raw per-scope configuration (`ngx_http_block_legacy_conf_t` as produced
by `ngx_http_block_legacy_create_conf` and the directive handlers, before
merging): `none` is `NGX_CONF_UNSET` for the flags and `data == NULL` for
`custom_message`. -/
structure ConfigScope where
  enable : Option Bool
  block_http10 : Option Bool
  block_http11 : Option Bool
  block_http09 : Option Bool
  custom_message : Option String
deriving DecidableEq, Repr

/-- `ngx_http_block_legacy_create_conf`: `ngx_pcalloc` zeroes the record
(`custom_message.data = NULL`) and the four flags are set to
`NGX_CONF_UNSET`. -/
def ngx_http_block_legacy_create_conf : ConfigScope :=
  ⟨none, none, none, none, none⟩

/-- The defaults supplied as third argument of the `ngx_conf_merge_value` /
`ngx_conf_merge_str_value` calls in `ngx_http_block_legacy_merge_conf`:
`enable = 0`, `block_http10 = 1`, `block_http11 = 0`, `block_http09 = 1`,
`custom_message = ""`.  Used exactly when a field is unset all the way up
the chain, i.e. this record acts as the root scope's parent. -/
def defaultPolicy : Policy :=
  { enable := false
    block_http10 := true
    block_http11 := false
    block_http09 := true
    custom_message := "" }

/-- `ngx_http_block_legacy_merge_conf`, with the parent already resolved
(nginx merges top-down, so at each merge the parent record has no unset
field left; the root's parent is `defaultPolicy`, see above).
`ngx_conf_merge_value(conf->f, prev->f, d)` keeps `conf->f` if set, else
takes `prev->f` (the default `d` only matters for an unset parent, which is
exactly the `defaultPolicy` root case).  Then, mirroring lines 256-261:
if the resolved `enable` is `0`, all three block flags are forced to `0`.
`ngx_conf_merge_str_value` runs after that and keeps `conf->custom_message`
whenever its `data` pointer is non-NULL (even for an empty string). -/
def ngx_http_block_legacy_merge_conf (prev : Policy) (conf : ConfigScope) : Policy :=
  let enable := conf.enable.getD prev.enable
  let block_http10 := conf.block_http10.getD prev.block_http10
  let block_http11 := conf.block_http11.getD prev.block_http11
  let block_http09 := conf.block_http09.getD prev.block_http09
  let custom_message := conf.custom_message.getD prev.custom_message
  if enable = false then
    { enable := enable
      block_http10 := false
      block_http11 := false
      block_http09 := false
      custom_message := custom_message }
  else
    { enable := enable
      block_http10 := block_http10
      block_http11 := block_http11
      block_http09 := block_http09
      custom_message := custom_message }

/-- The request's protocol version as classified by the `switch` on
`r->http_version` (lines 112-137): `NGX_HTTP_VERSION_9`,
`NGX_HTTP_VERSION_10`, `NGX_HTTP_VERSION_11`, and the `default` arm
(HTTP/2.0 and above). -/
inductive ProtocolVersion where
  | v0_9
  | v1_0
  | v1_1
  | v2plus
deriving DecidableEq, Repr

/-- Outcome of the version check in the handler: either the request is
allowed to continue (`NGX_DECLINED`) or it is blocked with the
human-readable version label the handler stores in `blocked_version`. -/
inductive Decision where
  | allow
  | block (blocked_version : String)
deriving DecidableEq, Repr

/-- Decision logic of `ngx_http_block_legacy_handler`, lines 107-141: if
the module is not enabled, `NGX_DECLINED`; otherwise the switch checks one
flag per version, labels "HTTP/0.9" / "HTTP/1.0" / "HTTP/1.1", and the
`default` arm (HTTP/2.0+) always declines. -/
def decide (conf : Policy) (version : ProtocolVersion) : Decision :=
  if conf.enable = false then
    Decision.allow
  else
    match version with
    | ProtocolVersion.v0_9 =>
        if conf.block_http09 then Decision.block "HTTP/0.9" else Decision.allow
    | ProtocolVersion.v1_0 =>
        if conf.block_http10 then Decision.block "HTTP/1.0" else Decision.allow
    | ProtocolVersion.v1_1 =>
        if conf.block_http11 then Decision.block "HTTP/1.1" else Decision.allow
    | ProtocolVersion.v2plus => Decision.allow

/-- The `default_msg` string literal of the handler (lines 180-188),
ending in "Your client used: ". -/
def default_msg : String :=
  "<!DOCTYPE html>\n<html>\n<head><title>426 Upgrade Required</title></head>\n<body>\n<center><h1>426 Upgrade Required</h1></center>\n<hr>\n<center>This server requires HTTP/2.0 or HTTP/1.1</center>\n<center>Your client used: "

/-- The fixed suffix appended after the version label (lines 191, 201-202). -/
def default_suffix : String := "</center>\n</body>\n</html>\n"

/-- `total_len` from line 190: preamble length + label length + suffix
length, the size passed to `ngx_pnalloc` and stored in
`response_body.len`. -/
def total_len (blocked_version : String) : Nat :=
  default_msg.length + blocked_version.length + default_suffix.length

/-- The default body built by the two `ngx_cpymem` calls (lines 198-202):
preamble, then the version label, then the fixed suffix. -/
def defaultBody (blocked_version : String) : String :=
  default_msg ++ blocked_version ++ default_suffix

/-- Body selection, lines 176-206: the custom message verbatim when its
length is positive, else the generated default body. -/
def response_body (conf : Policy) (blocked_version : String) : String :=
  if conf.custom_message.length > 0 then conf.custom_message
  else defaultBody blocked_version

/-- Whether each of the four request-pool allocations in the block path
succeeds: the two `ngx_list_push` calls for the `Upgrade` and `Connection`
headers, the `ngx_pnalloc` for the default body, and the `ngx_pcalloc` for
the output buffer. -/
structure AllocEnv where
  upgrade_push : Bool
  connection_push : Bool
  body_alloc : Bool
  buf_alloc : Bool
deriving DecidableEq, Repr

/-- The observable response assembled on the block path: status, the
headers this module added (in list order), the value of
`headers_out.content_length_n` at the moment `ngx_http_send_header`
serialized the headers, the body handed to `ngx_http_output_filter`, and
the value `content_length_n` ends up with after line 222. -/
structure ResponseOut where
  status : Nat
  headers : List (String × String)
  content_length_at_send : Int
  body : String
  content_length_final : Int
deriving DecidableEq, Repr

/-- Result of `ngx_http_block_legacy_handler`: `NGX_DECLINED`,
`NGX_HTTP_INTERNAL_SERVER_ERROR`, or a 426 response. -/
inductive HandlerResult where
  | declined
  | internal_server_error
  | response (r : ResponseOut)
deriving DecidableEq, Repr

/-- `ngx_http_block_legacy_handler`, lines 94-225, on the path where
`ngx_http_send_header` succeeds and the request is not header-only.
Faithful points: each `ngx_list_push` result is only guarded by
`if (header != NULL)`, so a failed push skips that header without aborting
(lines 155-167); `content_length_n` is `-1` (line 152) when
`ngx_http_send_header` runs (line 170) and is assigned
`response_body.len` only afterwards (line 222); `ngx_pnalloc` /
`ngx_pcalloc` failure returns `NGX_HTTP_INTERNAL_SERVER_ERROR`
(lines 193-196, 209-212). -/
def ngx_http_block_legacy_handler (env : AllocEnv) (conf : Policy)
    (version : ProtocolVersion) : HandlerResult :=
  match decide conf version with
  | Decision.allow => HandlerResult.declined
  | Decision.block blocked_version =>
      let headers :=
        (if env.upgrade_push then [("Upgrade", "HTTP/2.0, HTTP/1.1")] else [])
          ++ (if env.connection_push then [("Connection", "Upgrade")] else [])
      if conf.custom_message.length > 0 then
        if env.buf_alloc then
          HandlerResult.response
            { status := 426
              headers := headers
              content_length_at_send := -1
              body := conf.custom_message
              content_length_final := (conf.custom_message.length : Int) }
        else HandlerResult.internal_server_error
      else
        if env.body_alloc then
          if env.buf_alloc then
            HandlerResult.response
              { status := 426
                headers := headers
                content_length_at_send := -1
                body := defaultBody blocked_version
                content_length_final := ((defaultBody blocked_version).length : Int) }
          else HandlerResult.internal_server_error
        else HandlerResult.internal_server_error

/-- `ngx_http_block_legacy_custom_message`, lines 268-282: if the scope's
`custom_message.data` is already non-NULL the directive handler returns the
error string "is duplicate" (which makes nginx abort configuration
loading); otherwise it stores the directive's argument. -/
def ngx_http_block_legacy_custom_message (conf : ConfigScope) (value : String) :
    Except String ConfigScope :=
  if conf.custom_message.isSome then Except.error "is duplicate"
  else Except.ok { conf with custom_message := some value }

/-- The spec's per-field inheritance step of `resolve`, stated from its
words: take the local value if explicit, else inherit the parent's. -/
def inheritFields (prev : Policy) (conf : ConfigScope) : Policy :=
  { enable := conf.enable.getD prev.enable
    block_http10 := conf.block_http10.getD prev.block_http10
    block_http11 := conf.block_http11.getD prev.block_http11
    block_http09 := conf.block_http09.getD prev.block_http09
    custom_message := conf.custom_message.getD prev.custom_message }

/-- The post-merge normalization: a resolved `enable = false` forces the
three block flags to false. -/
def enforceDisabled (p : Policy) : Policy :=
  if p.enable = false then
    { p with block_http09 := false, block_http10 := false, block_http11 := false }
  else p

/-- The spec's `flatten` of two raw scopes: per field, the most specific
explicit value (the child's when explicit, else the parent's). -/
def flatten (parentScope childScope : ConfigScope) : ConfigScope :=
  { enable := childScope.enable.orElse fun _ => parentScope.enable
    block_http10 := childScope.block_http10.orElse fun _ => parentScope.block_http10
    block_http11 := childScope.block_http11.orElse fun _ => parentScope.block_http11
    block_http09 := childScope.block_http09.orElse fun _ => parentScope.block_http09
    custom_message := childScope.custom_message.orElse fun _ => parentScope.custom_message }

/-- Number of (possibly overlapping) occurrences of `pat` in `l`: one count
per position of `l` at which `pat` is a prefix of the remaining suffix. -/
def countSub (pat : List Char) : List Char → Nat
  | [] => 0
  | c :: rest =>
      (if pat.isPrefixOf (c :: rest) then 1 else 0) + countSub pat rest

set_option maxRecDepth 10000

/-- On `Option`, preferring the child value and then falling back through
the parent to a final default is the same as falling back field by field. -/
theorem getD_orElse_eq {α : Type} (c p : Option α) (d : α) :
    (c.orElse fun _ => p).getD d = c.getD (p.getD d) := by
  cases c <;> rfl

/-- Claim C1: whenever the merged configuration has `enable = false`, the
merge step itself has zeroed all three block flags, and the handler's
decision is Allow for every protocol version, no matter which flags the
raw scope had set explicitly before the merge. -/
theorem c1_disabled_merge_zeroes_flags_and_allows_all
    (prev : Policy) (scope : ConfigScope)
    (h : (ngx_http_block_legacy_merge_conf prev scope).enable = false) :
    ((ngx_http_block_legacy_merge_conf prev scope).block_http09 = false ∧
      (ngx_http_block_legacy_merge_conf prev scope).block_http10 = false ∧
      (ngx_http_block_legacy_merge_conf prev scope).block_http11 = false) ∧
    ∀ version, decide (ngx_http_block_legacy_merge_conf prev scope) version =
      Decision.allow := by
  cases hb : scope.enable.getD prev.enable with
  | false =>
      constructor
      · refine ⟨?_, ?_, ?_⟩ <;> simp [ngx_http_block_legacy_merge_conf, hb]
      · intro version
        simp [decide, ngx_http_block_legacy_merge_conf, hb]
  | true =>
      exfalso
      simp [ngx_http_block_legacy_merge_conf, hb] at h

theorem c1_witness :
    (ngx_http_block_legacy_merge_conf defaultPolicy
      ⟨some false, some true, some true, some true, none⟩).enable = false ∧
    decide (ngx_http_block_legacy_merge_conf defaultPolicy
      ⟨some false, some true, some true, some true, none⟩) ProtocolVersion.v1_0 =
      Decision.allow :=
  ⟨by decide,
    (c1_disabled_merge_zeroes_flags_and_allows_all defaultPolicy
      ⟨some false, some true, some true, some true, none⟩ (by decide)).2
      ProtocolVersion.v1_0⟩

/-- Claim C2: with `enable = true`, the decision maps V0_9 through its
`block_http09` flag (label "HTTP/0.9"), V1_0 through `block_http10`
(label "HTTP/1.0"), V1_1 through `block_http11` (label "HTTP/1.1"),
a false flag yields Allow, and HTTP/2.0+ always yields Allow. -/
theorem c2_enabled_version_mapping (conf : Policy) (h : conf.enable = true) :
    decide conf ProtocolVersion.v0_9 =
      (if conf.block_http09 then Decision.block "HTTP/0.9" else Decision.allow) ∧
    decide conf ProtocolVersion.v1_0 =
      (if conf.block_http10 then Decision.block "HTTP/1.0" else Decision.allow) ∧
    decide conf ProtocolVersion.v1_1 =
      (if conf.block_http11 then Decision.block "HTTP/1.1" else Decision.allow) ∧
    decide conf ProtocolVersion.v2plus = Decision.allow := by
  simp [decide, h]

theorem c2_witness :
    (ngx_http_block_legacy_merge_conf defaultPolicy
      ⟨some true, none, none, none, none⟩).enable = true ∧
    (decide (ngx_http_block_legacy_merge_conf defaultPolicy
        ⟨some true, none, none, none, none⟩) ProtocolVersion.v0_9 =
      (if (ngx_http_block_legacy_merge_conf defaultPolicy
            ⟨some true, none, none, none, none⟩).block_http09 then
        Decision.block "HTTP/0.9" else Decision.allow) ∧
    decide (ngx_http_block_legacy_merge_conf defaultPolicy
        ⟨some true, none, none, none, none⟩) ProtocolVersion.v1_0 =
      (if (ngx_http_block_legacy_merge_conf defaultPolicy
            ⟨some true, none, none, none, none⟩).block_http10 then
        Decision.block "HTTP/1.0" else Decision.allow) ∧
    decide (ngx_http_block_legacy_merge_conf defaultPolicy
        ⟨some true, none, none, none, none⟩) ProtocolVersion.v1_1 =
      (if (ngx_http_block_legacy_merge_conf defaultPolicy
            ⟨some true, none, none, none, none⟩).block_http11 then
        Decision.block "HTTP/1.1" else Decision.allow) ∧
    decide (ngx_http_block_legacy_merge_conf defaultPolicy
        ⟨some true, none, none, none, none⟩) ProtocolVersion.v2plus =
      Decision.allow) :=
  ⟨by decide,
    c2_enabled_version_mapping (ngx_http_block_legacy_merge_conf defaultPolicy
      ⟨some true, none, none, none, none⟩) (by decide)⟩

/-- Claim C3 as stated is refuted: the merge does not always keep a
field's explicit local value.  With the default root parent and a scope
that sets only `block_http09 true` (leaving `enable` unset, hence false),
the zeroing step of the merge overrides the explicit flag. -/
theorem c3_counterexample :
    ¬ (∀ (prev : Policy) (scope : ConfigScope) (b : Bool),
        scope.block_http09 = some b →
        (ngx_http_block_legacy_merge_conf prev scope).block_http09 = b) :=
  fun h =>
    absurd (h defaultPolicy ⟨none, none, none, some true, none⟩ true rfl)
      (by decide)

/-- Claim C3 amended: the merge equals the spec's per-field
override-if-set / inherit-if-unset step followed by the normalization
that forces the three block flags to false when the resolved `enable`
is false (the root's parent being `defaultPolicy`). -/
theorem c3_amended_inherit_then_enforce (prev : Policy) (conf : ConfigScope) :
    ngx_http_block_legacy_merge_conf prev conf =
      enforceDisabled (inheritFields prev conf) := by
  unfold ngx_http_block_legacy_merge_conf enforceDisabled inheritFields
  cases hb : conf.enable.getD prev.enable <;> simp [hb]

/-- Claim C4 as stated is refuted: a parent scope that sets only
`block_http09 true` resolves against the default root to a disabled
policy whose flags are zeroed; a child that then sets `enable true`
inherits the zeroed flag, while the one-pass flattened chain keeps the
parent's explicit `block_http09 true`. -/
theorem c4_counterexample :
    ngx_http_block_legacy_merge_conf
        (ngx_http_block_legacy_merge_conf defaultPolicy
          ⟨none, none, none, some true, none⟩)
        ⟨some true, none, none, none, none⟩ ≠
      ngx_http_block_legacy_merge_conf defaultPolicy
        (flatten ⟨none, none, none, some true, none⟩
          ⟨some true, none, none, none, none⟩) := by
  decide

/-- Claim C4 amended: the two-step and one-pass resolutions agree
whenever the intermediate resolved policy is enabled, or the final
resolved policy is disabled; the remaining case (a disabled intermediate
scope whose zeroed flags are inherited by a re-enabling child) is exactly
the counterexample. -/
theorem c4_amended_flatten_equivalence (parentScope childScope : ConfigScope)
    (h : (ngx_http_block_legacy_merge_conf defaultPolicy parentScope).enable = true ∨
      (ngx_http_block_legacy_merge_conf
        (ngx_http_block_legacy_merge_conf defaultPolicy parentScope)
        childScope).enable = false) :
    ngx_http_block_legacy_merge_conf
        (ngx_http_block_legacy_merge_conf defaultPolicy parentScope) childScope =
      ngx_http_block_legacy_merge_conf defaultPolicy
        (flatten parentScope childScope) := by
  obtain ⟨pe, p10, p11, p09, pm⟩ := parentScope
  obtain ⟨ce, c10, c11, c09, cm⟩ := childScope
  rcases pe with _ | pb
  · rcases ce with _ | cb
    · simp [ngx_http_block_legacy_merge_conf, defaultPolicy, flatten,
        getD_orElse_eq]
    · cases cb
      · simp [ngx_http_block_legacy_merge_conf, defaultPolicy, flatten,
          getD_orElse_eq]
      · simp [ngx_http_block_legacy_merge_conf, defaultPolicy, flatten] at h
  · cases pb
    · rcases ce with _ | cb
      · simp [ngx_http_block_legacy_merge_conf, defaultPolicy, flatten,
          getD_orElse_eq]
      · cases cb
        · simp [ngx_http_block_legacy_merge_conf, defaultPolicy, flatten,
            getD_orElse_eq]
        · simp [ngx_http_block_legacy_merge_conf, defaultPolicy, flatten] at h
    · rcases ce with _ | cb
      · simp [ngx_http_block_legacy_merge_conf, defaultPolicy, flatten,
          getD_orElse_eq]
      · cases cb
        · simp [ngx_http_block_legacy_merge_conf, defaultPolicy, flatten,
            getD_orElse_eq]
        · simp [ngx_http_block_legacy_merge_conf, defaultPolicy, flatten,
            getD_orElse_eq]

theorem c4_witness :
    (ngx_http_block_legacy_merge_conf defaultPolicy
      ⟨some true, none, none, some true, none⟩).enable = true ∧
    ngx_http_block_legacy_merge_conf
        (ngx_http_block_legacy_merge_conf defaultPolicy
          ⟨some true, none, none, some true, none⟩)
        ⟨none, some false, none, none, none⟩ =
      ngx_http_block_legacy_merge_conf defaultPolicy
        (flatten ⟨some true, none, none, some true, none⟩
          ⟨none, some false, none, none, none⟩) :=
  ⟨by decide,
    c4_amended_flatten_equivalence ⟨some true, none, none, some true, none⟩
      ⟨none, some false, none, none, none⟩ (Or.inl (by decide))⟩

/-- Claim C5: with an absent (resolved-empty) custom message, the body is
exactly preamble ++ versionLabel ++ suffix; its declared length
(`response_body.len`, i.e. `total_len`) is the exact character count of
that concatenation (all bytes are ASCII, so characters are bytes); the
preamble ends in "Your client used: "; and for the "HTTP/1.0" label the
body contains "HTTP/1.0" exactly once and ends with "</html>\n". -/
theorem c5_default_body_shape (conf : Policy) (h : conf.custom_message = "") :
    (∀ blocked_version,
      response_body conf blocked_version =
        default_msg ++ blocked_version ++ default_suffix ∧
      (response_body conf blocked_version).length = total_len blocked_version) ∧
    "Your client used: ".data.isSuffixOf default_msg.data = true ∧
    countSub "HTTP/1.0".data (response_body conf "HTTP/1.0").data = 1 ∧
    "</html>\n".data.isSuffixOf (response_body conf "HTTP/1.0").data = true := by
  have hb : ∀ blocked_version,
      response_body conf blocked_version = defaultBody blocked_version := by
    intro bv
    simp [response_body, h]
  refine ⟨?_, by decide, ?_, ?_⟩
  · intro bv
    refine ⟨hb bv, ?_⟩
    rw [hb bv]
    simp [defaultBody, total_len, String.length_append]
  · rw [hb]
    decide
  · rw [hb]
    decide

theorem c5_witness :
    defaultPolicy.custom_message = "" ∧
    countSub "HTTP/1.0".data (response_body defaultPolicy "HTTP/1.0").data = 1 :=
  ⟨rfl, (c5_default_body_shape defaultPolicy rfl).2.2.1⟩

/-- Claim C6: a non-empty custom message is sent verbatim as the body,
with no templating, whichever version label was blocked. -/
theorem c6_custom_message_verbatim (conf : Policy) (blocked_version : String)
    (h : conf.custom_message.length > 0) :
    response_body conf blocked_version = conf.custom_message := by
  simp [response_body, h]

theorem c6_witness :
    (⟨true, true, false, true, "Please upgrade."⟩ : Policy).custom_message.length > 0 ∧
    response_body ⟨true, true, false, true, "Please upgrade."⟩ "HTTP/0.9" =
      "Please upgrade." :=
  ⟨by decide,
    c6_custom_message_verbatim ⟨true, true, false, true, "Please upgrade."⟩
      "HTTP/0.9" (by decide)⟩

/-- Claim C7, evaluated at a failing input (the code-bug case): on a
normal block of HTTP/1.0 (all allocations succeed), the handler does emit
status 426 and exactly the `Upgrade` then `Connection` headers, but
`content_length_n` is still `-1` when `ngx_http_send_header` serializes
the headers, and only afterwards is it set to the body length — so the
Content-Length conveyed with the emitted headers is not the body length. -/
theorem c7_content_length_not_conveyed :
    ngx_http_block_legacy_handler ⟨true, true, true, true⟩
        (ngx_http_block_legacy_merge_conf defaultPolicy
          ⟨some true, none, none, none, none⟩)
        ProtocolVersion.v1_0 =
      HandlerResult.response
        { status := 426
          headers := [("Upgrade", "HTTP/2.0, HTTP/1.1"), ("Connection", "Upgrade")]
          content_length_at_send := -1
          body := defaultBody "HTTP/1.0"
          content_length_final := ((defaultBody "HTTP/1.0").length : Int) } ∧
    (-1 : Int) ≠ ((defaultBody "HTTP/1.0").length : Int) := by
  constructor
  · rfl
  · decide

/-- Claim C8, evaluated at a failing input (the code-bug case): when the
`ngx_list_push` for the `Upgrade` header fails, the handler does not
return a server error — it serves the 426 response with that header
silently missing; by contrast, a failed body or buffer allocation does
return `NGX_HTTP_INTERNAL_SERVER_ERROR`. -/
theorem c8_header_alloc_failure_not_an_error :
    ngx_http_block_legacy_handler ⟨false, true, true, true⟩
        (ngx_http_block_legacy_merge_conf defaultPolicy
          ⟨some true, none, none, none, none⟩)
        ProtocolVersion.v1_0 =
      HandlerResult.response
        { status := 426
          headers := [("Connection", "Upgrade")]
          content_length_at_send := -1
          body := defaultBody "HTTP/1.0"
          content_length_final := ((defaultBody "HTTP/1.0").length : Int) } ∧
    ngx_http_block_legacy_handler ⟨false, true, true, true⟩
        (ngx_http_block_legacy_merge_conf defaultPolicy
          ⟨some true, none, none, none, none⟩)
        ProtocolVersion.v1_0 ≠ HandlerResult.internal_server_error ∧
    ngx_http_block_legacy_handler ⟨true, true, false, true⟩
        (ngx_http_block_legacy_merge_conf defaultPolicy
          ⟨some true, none, none, none, none⟩)
        ProtocolVersion.v1_0 = HandlerResult.internal_server_error ∧
    ngx_http_block_legacy_handler ⟨true, true, true, false⟩
        (ngx_http_block_legacy_merge_conf defaultPolicy
          ⟨some true, none, none, none, none⟩)
        ProtocolVersion.v1_0 = HandlerResult.internal_server_error := by
  refine ⟨rfl, by decide, rfl, rfl⟩

/-- Claim C9: a second occurrence of the custom-message directive in the
same scope is rejected with the load-time error "is duplicate" (which
aborts configuration loading), for any starting scope and any pair of
argument values — the first value is never silently overwritten. -/
theorem c9_duplicate_custom_message_rejected (scope : ConfigScope)
    (a b : String) :
    (ngx_http_block_legacy_custom_message scope a).bind
        (fun s => ngx_http_block_legacy_custom_message s b) =
      Except.error "is duplicate" := by
  unfold ngx_http_block_legacy_custom_message
  rcases hm : scope.custom_message with _ | m <;> simp [hm, Except.bind]

/-- Claim C10: a custom message explicitly set to the empty string resolves
to a zero-length message, so the block path generates the default HTML
body — exactly as when the directive is absent everywhere in the chain
(resolved message empty). -/
theorem c10_empty_custom_message_uses_default_body
    (prev prev2 : Policy) (scope : ConfigScope) (blocked_version : String)
    (h : prev2.custom_message = "") :
    response_body
        (ngx_http_block_legacy_merge_conf prev
          { scope with custom_message := some "" }) blocked_version =
      defaultBody blocked_version ∧
    response_body
        (ngx_http_block_legacy_merge_conf prev2
          { scope with custom_message := none }) blocked_version =
      defaultBody blocked_version := by
  constructor
  · have hm : (ngx_http_block_legacy_merge_conf prev
        { scope with custom_message := some "" }).custom_message = "" := by
      unfold ngx_http_block_legacy_merge_conf
      cases hb : scope.enable.getD prev.enable <;> simp [hb]
    simp [response_body, hm]
  · have hm : (ngx_http_block_legacy_merge_conf prev2
        { scope with custom_message := none }).custom_message = "" := by
      unfold ngx_http_block_legacy_merge_conf
      cases hb : scope.enable.getD prev2.enable <;> simp [hb, h]
    simp [response_body, hm]

theorem c10_witness :
    defaultPolicy.custom_message = "" ∧
    response_body
        (ngx_http_block_legacy_merge_conf defaultPolicy
          { ngx_http_block_legacy_create_conf with custom_message := some "" })
        "HTTP/1.1" =
      defaultBody "HTTP/1.1" :=
  ⟨rfl,
    (c10_empty_custom_message_uses_default_body defaultPolicy defaultPolicy
      ngx_http_block_legacy_create_conf "HTTP/1.1" rfl).1⟩

end BlockLegacy
